import Mathlib

/-!
Verification of `src/python/src/grpc/framework/face/_service.py`, the
service-adaptation layer of the grpc Python face framework.

The stateful Python code is embedded shallowly as trace-producing Lean
functions: every observable call a piece of code makes on a collaborator
object (the operation context, the downstream `stream.Consumer`, the thread
pool, the logger) becomes an event in the list the embedded function
returns, in the order the source makes those calls.  Exceptions are
modelled as explicit `Option`/`Except` results.

Collaborators of `_service.py` that live in modules outside the provided
source (`_control`, `callable_util`, `stream_util`) are modelled from the
specification; each such definition carries a doc comment starting with
`Modelled from the spec:`.
-/

/-- Exceptions that a servicing behavior may raise.  The five named
constructors are the five "expected" kinds caught by name in `_pool_wrap`
(`abandonment.Abandoned`, `exceptions.ExpirationError`,
`exceptions.CancellationError`, `exceptions.ServicedError`,
`exceptions.NetworkError`); `other` stands for any other `Exception`,
tagged so that distinct unexpected exceptions stay distinguishable. -/
inductive Exc : Type
  | abandoned
  | expirationError
  | cancellationError
  | servicedError
  | networkError
  | other (tag : Nat)
  deriving DecidableEq, Repr

/-- Whether an exception is one of the five kinds named in the first
`except` clause of `_pool_wrap.translation`. -/
def Exc.isExpected : Exc → Bool
  | Exc.abandoned => true
  | Exc.expirationError => true
  | Exc.cancellationError => true
  | Exc.servicedError => true
  | Exc.networkError => true
  | Exc.other _ => false

/-- Observable calls made while running a pool-wrapped behavior:
`isActive b` records a call to `operation_context.is_active()` that
returned `b`; `fail e` records a call to `operation_context.fail(e)`;
`log m e` records the logger recording exception `e` with message `m`. -/
inductive Event : Type
  | isActive (result : Bool)
  | fail (e : Exc)
  | log (message : String) (e : Exc)
  deriving DecidableEq, Repr

/-- Whether an event is a logging event. -/
def Event.isLog : Event → Bool
  | Event.log _ _ => true
  | _ => false

/-- Modelled from the spec: `_control.INTERNAL_ERROR_LOG_MESSAGE` (module
`grpc.framework.face._control`, not under src/), the fixed internal-error
marker used for logging. -/
def INTERNAL_ERROR_LOG_MESSAGE : String :=
  "RPC Framework (Face) Internal Error"

/-- The inner `translation` closure of `_pool_wrap`, embedded over the
outcome of running `behavior(*args)` (`none` if it returned, `some e` if it
raised `e`) and the value `operation_context.is_active()` would return at
the moment of the catch.  Returns the calls made on the operation context,
in order, together with the exception `translation` itself lets escape
(`none` here on every path: both handlers catch and do not re-raise, and
`operation_context.fail` is modelled as total). -/
def translation (isActiveAtCatch : Bool) (outcome : Option Exc) :
    List Event × Option Exc :=
  match outcome with
  | none => ([], none)
  | some e =>
    if e.isExpected then
      (Event.isActive isActiveAtCatch ::
        (if isActiveAtCatch then [Event.fail e] else []), none)
    else
      ([Event.fail e], none)

/-- Modelled from the spec: `callable_util.with_exceptions_logged`
(module `grpc.framework.foundation.callable_util`, not under src/), one of
the "exception-to-log utilities".  It wraps a callable so that any
exception the callable raises is logged with the given message and not
re-raised; exceptions the callable catches internally never reach it. -/
def with_exceptions_logged {α : Type} (run : α → List Event × Option Exc)
    (message : String) : α → List Event :=
  fun a =>
    match run a with
    | (events, none) => events
    | (events, some e) => events ++ [Event.log message e]

/-- `_pool_wrap(behavior, operation_context)`: the wrapped callable,
embedded as the trace of collaborator calls it makes, as a function of the
behavior's outcome and of the liveness the operation context reports at
the moment an exception is caught. -/
def pool_wrap (isActiveAtCatch : Bool) : Option Exc → List Event :=
  with_exceptions_logged (translation isActiveAtCatch)
    INTERNAL_ERROR_LOG_MESSAGE

/-- The full characterization of the pool-wrap trace, used by the
claim theorems below. -/
theorem pool_wrap_eq (a : Bool) (o : Option Exc) :
    pool_wrap a o =
      match o with
      | none => []
      | some e =>
        if e.isExpected then
          Event.isActive a :: (if a then [Event.fail e] else [])
        else [Event.fail e] := by
  cases o with
  | none => rfl
  | some e =>
    by_cases h : e.isExpected <;>
      simp [pool_wrap, with_exceptions_logged, translation, h]

/-- C1: for a behavior raising one of the five expected exception kinds,
`operation_context.fail` is called with that exception exactly when
`operation_context.is_active()` returns true at the catch; when it returns
false, `fail` is never called with that exception. -/
theorem pool_wrap_expected_fail_iff_active (e : Exc) (a : Bool)
    (h : e.isExpected = true) :
    Event.fail e ∈ pool_wrap a (some e) ↔ a = true := by
  rw [pool_wrap_eq]
  simp only [h, if_pos]
  cases a <;> simp

/-- Witness for C1 at a concrete expected exception: a serviced error with
the call live is reported, and with the call no longer live is not. -/
theorem pool_wrap_expected_fail_iff_active_witness :
    (Event.fail Exc.servicedError ∈ pool_wrap true (some Exc.servicedError)
        ↔ true = true)
    ∧ (Event.fail Exc.servicedError ∈
          pool_wrap false (some Exc.servicedError) ↔ false = true) :=
  ⟨pool_wrap_expected_fail_iff_active Exc.servicedError true (by decide),
   pool_wrap_expected_fail_iff_active Exc.servicedError false (by decide)⟩

/-- C2: for a behavior raising an unexpected exception, the trace is
exactly one `fail` call with that exception — unconditionally in the
liveness value, and with no `is_active` consultation on that path. -/
theorem pool_wrap_unexpected_fail_unconditional (e : Exc) (a : Bool)
    (h : e.isExpected = false) :
    pool_wrap a (some e) = [Event.fail e] := by
  rw [pool_wrap_eq]
  simp [h]

/-- Witness for C2 at a concrete unexpected exception, under both
liveness values. -/
theorem pool_wrap_unexpected_fail_unconditional_witness :
    pool_wrap true (some (Exc.other 0)) = [Event.fail (Exc.other 0)]
    ∧ pool_wrap false (some (Exc.other 0)) = [Event.fail (Exc.other 0)] :=
  ⟨pool_wrap_unexpected_fail_unconditional (Exc.other 0) true (by decide),
   pool_wrap_unexpected_fail_unconditional (Exc.other 0) false (by decide)⟩

/-- C9: when the behavior completes without raising, the wrapped callable
makes no call at all on the operation context: neither `fail` nor
`is_active` appears in the trace. -/
theorem pool_wrap_success_untouched (a : Bool) :
    pool_wrap a none = [] := by
  rw [pool_wrap_eq]

/-- C3 counterexample: a behavior raising a serviced error on a live call
is translated into a `fail` call, yet no logging event appears anywhere in
the trace — the exception is caught inside `translation`, so the logging
wrapper around `translation` never sees it. -/
theorem pool_wrap_exception_not_logged_cex :
    Event.fail Exc.servicedError ∈ pool_wrap true (some Exc.servicedError)
    ∧ (pool_wrap true (some Exc.servicedError)).all
        (fun ev => !ev.isLog) = true := by
  constructor <;> decide

/-- C3 amended: exceptions raised by the behavior are caught and translated
inside `translation` without being logged; the logging wrapper logs only
exceptions that escape `translation`, and `translation` lets none escape,
so no trace of the wrapped callable ever contains a logging event. -/
theorem pool_wrap_never_logs (a : Bool) (o : Option Exc) :
    (pool_wrap a o).all (fun ev => !ev.isLog) = true
    ∧ (translation a o).2 = none := by
  refine ⟨?_, ?_⟩
  · rw [pool_wrap_eq]
    cases o with
    | none => rfl
    | some e =>
      by_cases h : e.isExpected <;> cases a <;> simp [h, Event.isLog]
  · cases o with
    | none => rfl
    | some e =>
      by_cases h : e.isExpected <;> simp [translation, h]

/-- Calls observed by a `stream.Consumer`: the three methods of the
consumer protocol.  A fused `consume_and_terminate(w)` call is its own
event, distinct from a `consume(w)` call followed by a `terminate()`
call, because a downstream consumer receives it as a single method
invocation. -/
inductive DEvent (W : Type) : Type
  | consume (w : W)
  | terminate
  | consumeAndTerminate (w : W)
  deriving DecidableEq, Repr

/-- Modelled from the spec: `_control.RpcContext` (module
`grpc.framework.face._control`, not under src/), a read-only projection of
the operation context exposing liveness queries.  `is_active` is indexed
by how many liveness checks have been made so far, so a single structure
describes a whole liveness history of the enclosing call. -/
structure RpcContext : Type where
  is_active : Nat → Bool

/-- Modelled from the spec: `_control.pipe_iterator_to_consumer` (module
`grpc.framework.face._control`, not under src/), the sequence pump.  It
drains the sequence into the consumer, checking liveness before and after
each item and abandoning (raising, without terminating the consumer) as
soon as a check fails; when the sequence is exhausted it terminates the
consumer exactly when `terminate_at_end` is set.  Returns the calls made
on the consumer together with whether the pump abandoned early. -/
def pipe_iterator_to_consumer {W : Type} (seq : List W) (active : Nat → Bool)
    (k : Nat) (terminate_at_end : Bool) : List (DEvent W) × Bool :=
  match seq with
  | [] => (if terminate_at_end then [DEvent.terminate] else [], false)
  | w :: rest =>
    if active k then
      if active (k + 1) then
        (DEvent.consume w ::
            (pipe_iterator_to_consumer rest active (k + 2) terminate_at_end).1,
         (pipe_iterator_to_consumer rest active (k + 2) terminate_at_end).2)
      else ([DEvent.consume w], true)
    else ([], true)

/-- `_ValueInStreamOutConsumer(behavior, context, downstream)`: `behavior`
maps one request value and the rpc context to the (finite prefix we
observe of the) generated response sequence; `downstream` is left
implicit, since the embedding reports the calls made on it as a trace. -/
structure ValueInStreamOutConsumer (V W : Type) : Type where
  behavior : V → RpcContext → List W
  context : RpcContext

/-- `_ValueInStreamOutConsumer.consume`: pumps `behavior(value, context)`
into the downstream consumer with `terminate` disabled, gated on
`context.is_active`.  Returns the downstream calls and whether the pump
abandoned. -/
def ValueInStreamOutConsumer.consume {V W : Type}
    (c : ValueInStreamOutConsumer V W) (value : V) : List (DEvent W) × Bool :=
  pipe_iterator_to_consumer (c.behavior value c.context)
    c.context.is_active 0 false

/-- `_ValueInStreamOutConsumer.terminate`: terminates downstream and does
nothing else. -/
def ValueInStreamOutConsumer.terminate {V W : Type}
    (_ : ValueInStreamOutConsumer V W) : List (DEvent W) :=
  [DEvent.terminate]

/-- `_ValueInStreamOutConsumer.consume_and_terminate`: pumps
`behavior(value, context)` into the downstream consumer with `terminate`
enabled, gated on `context.is_active`. -/
def ValueInStreamOutConsumer.consume_and_terminate {V W : Type}
    (c : ValueInStreamOutConsumer V W) (value : V) : List (DEvent W) × Bool :=
  pipe_iterator_to_consumer (c.behavior value c.context)
    c.context.is_active 0 true

/-- The pump never terminates the downstream consumer when
`terminate_at_end` is disabled. -/
theorem pipe_no_terminate_of_not_terminating {W : Type} (seq : List W)
    (active : Nat → Bool) (k : Nat) :
    DEvent.terminate ∉ (pipe_iterator_to_consumer seq active k false).1 := by
  induction seq generalizing k with
  | nil => simp [pipe_iterator_to_consumer]
  | cons w rest ih =>
    by_cases h1 : active k
    · by_cases h2 : active (k + 1)
      · simpa [pipe_iterator_to_consumer, h1, h2] using ih (k + 2)
      · simp [pipe_iterator_to_consumer, h1, h2]
    · simp [pipe_iterator_to_consumer, h1]

/-- Under a liveness oracle that stays true, the pump delivers the whole
sequence in order, followed by a terminate exactly when requested, and
does not abandon. -/
theorem pipe_always_active {W : Type} (seq : List W) (k : Nat) (t : Bool) :
    pipe_iterator_to_consumer seq (fun _ => true) k t
      = (seq.map DEvent.consume
          ++ (if t then [DEvent.terminate] else []), false) := by
  induction seq generalizing k with
  | nil => simp [pipe_iterator_to_consumer]
  | cons w rest ih => simp [pipe_iterator_to_consumer, ih (k + 2)]

/-- A terminating pump run is the corresponding non-terminating run
followed by a final terminate exactly when the run did not abandon, and
both runs abandon under the same circumstances. -/
theorem pipe_terminate_split {W : Type} (seq : List W) (active : Nat → Bool)
    (k : Nat) :
    pipe_iterator_to_consumer seq active k true
      = ((pipe_iterator_to_consumer seq active k false).1
          ++ (if (pipe_iterator_to_consumer seq active k false).2 then []
              else [DEvent.terminate]),
         (pipe_iterator_to_consumer seq active k false).2) := by
  induction seq generalizing k with
  | nil => simp [pipe_iterator_to_consumer]
  | cons w rest ih =>
    by_cases h1 : active k
    · by_cases h2 : active (k + 1)
      · simp [pipe_iterator_to_consumer, h1, h2, ih (k + 2)]
      · simp [pipe_iterator_to_consumer, h1, h2]
    · simp [pipe_iterator_to_consumer, h1]

/-- C4: for the one-to-many mapping consumer, `consume(value)` pumps the
sequence `behavior(value, context)` downstream without ever calling
downstream `terminate` (in particular not at sequence exhaustion, as the
fully-live run shows); `consume_and_terminate(value)` pumps the same
sequence with terminate-at-end enabled; and `terminate()` calls
downstream `terminate` and nothing else. -/
theorem valueInStreamOut_consumer_paths {V W : Type}
    (b : V → RpcContext → List W) (ctx : RpcContext) (v : V) :
    DEvent.terminate ∉ ((ValueInStreamOutConsumer.mk b ctx).consume v).1
    ∧ (ValueInStreamOutConsumer.mk b ctx).terminate = [DEvent.terminate]
    ∧ (ValueInStreamOutConsumer.mk b ctx).consume_and_terminate v
        = pipe_iterator_to_consumer (b v ctx) ctx.is_active 0 true
    ∧ ((ctx.is_active = fun _ => true) →
        ((ValueInStreamOutConsumer.mk b ctx).consume v).1
            = (b v ctx).map DEvent.consume
        ∧ ((ValueInStreamOutConsumer.mk b ctx).consume_and_terminate v).1
            = (b v ctx).map DEvent.consume ++ [DEvent.terminate]) := by
  refine ⟨pipe_no_terminate_of_not_terminating _ _ _, rfl, rfl, fun h => ?_⟩
  constructor
  · show (pipe_iterator_to_consumer (b v ctx) ctx.is_active 0 false).1 = _
    rw [h, pipe_always_active]
    simp
  · show (pipe_iterator_to_consumer (b v ctx) ctx.is_active 0 true).1 = _
    rw [h, pipe_always_active]
    simp

/-- Witness for C4 at a concrete behavior, value and (fully live)
liveness history. -/
theorem valueInStreamOut_consumer_paths_witness :
    DEvent.terminate ∉
        ((ValueInStreamOutConsumer.mk (fun (v : Nat) _ => [v, v + 1])
            (RpcContext.mk fun _ => true)).consume 5).1
    ∧ ((ValueInStreamOutConsumer.mk (fun (v : Nat) _ => [v, v + 1])
            (RpcContext.mk fun _ => true)).consume 5).1
        = [DEvent.consume 5, DEvent.consume 6]
    ∧ ((ValueInStreamOutConsumer.mk (fun (v : Nat) _ => [v, v + 1])
            (RpcContext.mk fun _ => true)).consume_and_terminate 5).1
        = [DEvent.consume 5, DEvent.consume 6, DEvent.terminate] := by
  have h := valueInStreamOut_consumer_paths
    (fun (v : Nat) _ => [v, v + 1]) (RpcContext.mk fun _ => true) 5
  have h2 := h.2.2.2 rfl
  exact ⟨h.1, h2.1, h2.2⟩

/-- Modelled from the spec: `stream_util.TransformingConsumer` (module
`grpc.framework.foundation.stream_util`, not under src/), the consumer
returned by the single-request/single-response inline adaptation.  Each
inbound value is passed through the transformation and forwarded to the
downstream consumer; the fused `consume_and_terminate` forwards the
transformed value downstream in one fused step (the spec's rationale for
the fused call is precisely that downstream receives value and
termination "in one step"), and `terminate` forwards termination. -/
structure TransformingConsumer (V W : Type) : Type where
  transformation : V → W

/-- `TransformingConsumer.consume`: forwards the transformed value via
downstream `consume`. -/
def TransformingConsumer.consume {V W : Type} (c : TransformingConsumer V W)
    (value : V) : List (DEvent W) :=
  [DEvent.consume (c.transformation value)]

/-- `TransformingConsumer.terminate`: forwards termination downstream. -/
def TransformingConsumer.terminate {V W : Type}
    (_ : TransformingConsumer V W) : List (DEvent W) :=
  [DEvent.terminate]

/-- `TransformingConsumer.consume_and_terminate`: forwards the transformed
value downstream via the fused call. -/
def TransformingConsumer.consume_and_terminate {V W : Type}
    (c : TransformingConsumer V W) (value : V) : List (DEvent W) :=
  [DEvent.consumeAndTerminate (c.transformation value)]

/-- The downstream calls observed when a caller runs `consume(value)` and,
if that call returned normally (did not abandon), immediately runs
`terminate()`, on a one-to-many mapping consumer. -/
def consumeThenTerminate {V W : Type} (c : ValueInStreamOutConsumer V W)
    (value : V) : List (DEvent W) :=
  if (c.consume value).2 then (c.consume value).1
  else (c.consume value).1 ++ c.terminate

/-- Interpretation of a consumer-protocol call under the protocol's own
defining equation: a fused `consume_and_terminate(w)` call denotes a
`consume(w)` call followed by a `terminate()` call; the other calls denote
themselves. -/
def DEvent.flatten {W : Type} : DEvent W → List (DEvent W)
  | DEvent.consumeAndTerminate w => [DEvent.consume w, DEvent.terminate]
  | e => [e]

/-- Interpretation of a whole trace of consumer-protocol calls under the
protocol's defining equation. -/
def flattenTrace {W : Type} : List (DEvent W) → List (DEvent W)
  | [] => []
  | e :: rest => DEvent.flatten e ++ flattenTrace rest

/-- A successor transformer used as a concrete transforming consumer. -/
def succTransformer : TransformingConsumer Nat Nat :=
  TransformingConsumer.mk (fun n => n + 1)

/-- C5 counterexample: for the single-request/single-response inline
shape's consumer, the downstream consumer does not observe the identical
sequence of calls from `consume_and_terminate(0)` (one fused call) as from
`consume(0)` followed by `terminate()` (two separate calls). -/
theorem fused_not_identical_to_split_cex :
    succTransformer.consume_and_terminate 0
      ≠ succTransformer.consume 0 ++ succTransformer.terminate := by
  decide

/-- Distributing trace interpretation over concatenation. -/
theorem flattenTrace_append {W : Type} (xs ys : List (DEvent W)) :
    flattenTrace (xs ++ ys) = flattenTrace xs ++ flattenTrace ys := by
  induction xs with
  | nil => rfl
  | cons e rest ih => simp [flattenTrace, ih]

/-- C5 amended: for the one-to-many mapping consumer the downstream call
sequences are literally identical — `consume_and_terminate(value)` equals
`consume(value)` immediately followed by `terminate()` (terminate being
skipped exactly when `consume` abandoned), under every liveness history,
with matching abandonment; for the transforming consumer the two runs
coincide only up to the consumer protocol's defining equation, read
through `flattenTrace`: the fused call stands for a consume followed by a
terminate. -/
theorem fused_equals_split_amended :
    (∀ (V W : Type) (b : V → RpcContext → List W) (ctx : RpcContext) (v : V),
      ((ValueInStreamOutConsumer.mk b ctx).consume_and_terminate v).1
          = consumeThenTerminate (ValueInStreamOutConsumer.mk b ctx) v
      ∧ ((ValueInStreamOutConsumer.mk b ctx).consume_and_terminate v).2
          = ((ValueInStreamOutConsumer.mk b ctx).consume v).2)
    ∧ (∀ (V W : Type) (t : TransformingConsumer V W) (v : V),
      flattenTrace (t.consume_and_terminate v)
          = flattenTrace (t.consume v ++ t.terminate)) := by
  constructor
  · intro V W b ctx v
    constructor
    · show (pipe_iterator_to_consumer (b v ctx) ctx.is_active 0 true).1 = _
      rw [pipe_terminate_split]
      unfold consumeThenTerminate
      by_cases h : ((ValueInStreamOutConsumer.mk b ctx).consume v).2
      · simp only [h, if_pos]
        simp [ValueInStreamOutConsumer.consume] at h
        simp [h, ValueInStreamOutConsumer.consume]
      · simp only [h, if_neg]
        simp only [Bool.not_eq_true] at h
        simp [ValueInStreamOutConsumer.consume] at h
        simp [h, ValueInStreamOutConsumer.consume,
          ValueInStreamOutConsumer.terminate]
    · show (pipe_iterator_to_consumer (b v ctx) ctx.is_active 0 true).2 = _
      rw [pipe_terminate_split]
      rfl
  · intro V W t v
    rfl

/-- Modelled from the spec: a `base_interfaces.OperationContext` as the
adaptation layer consumes it — a liveness oracle plus the failure and
termination-callback channels whose invocations the traces record. -/
structure OperationContext : Type where
  is_active : Nat → Bool

/-- Callbacks this module registers on an operation context.  The only one
registered anywhere in `_service.py` is `rendezvous.set_outcome`. -/
inductive TermCallback : Type
  | rendezvousSetOutcome
  deriving DecidableEq, Repr

/-- The pooled tasks `_service.py` submits: the `in_pool_thread` closures
of `adapt_inline_stream_in_value_out` and of
`adapt_inline_stream_in_stream_out` (each wrapped in `_pool_wrap`). -/
inductive PoolTask : Type
  | streamInValueOutTask
  | streamInStreamOutTask
  deriving DecidableEq, Repr

/-- Observable steps an adaptation performs, in source order, between
being called with `(response_consumer, operation_context)` and returning
its request consumer: constructing an `_control.RpcContext`, constructing
an `_control.Rendezvous`, registering a termination callback on the
operation context, submitting a task to the pool, or invoking
`method.service`. -/
inductive SetupStep : Type
  | newRpcContext
  | newRendezvous
  | addTerminationCallback (cb : TermCallback)
  | poolSubmit (task : PoolTask)
  | invokeService
  deriving DecidableEq, Repr

/-- Whether a setup step is a pool submission. -/
def SetupStep.isPoolSubmit : SetupStep → Bool
  | SetupStep.poolSubmit _ => true
  | _ => false

/-- Whether a setup step registers a termination callback. -/
def SetupStep.isAddTerminationCallback : SetupStep → Bool
  | SetupStep.addTerminationCallback _ => true
  | _ => false

/-- The request consumer an adaptation returns: a
`stream_util.TransformingConsumer`, a `_ValueInStreamOutConsumer`, the
rendezvous it just created, a `_control.UnaryConsumer`, or the value
`method.service` itself returned. -/
inductive ReturnedConsumer : Type
  | transformingConsumer
  | valueInStreamOutConsumer
  | theRendezvous
  | unaryConsumer
  | serviceReturnValue
  deriving DecidableEq, Repr

/-- What one call of an adaptation does: its setup steps in order, and the
request consumer it returns.  The adaptation bodies in `_service.py` are
straight-line code that never branches on `response_consumer` or
`operation_context`, so each trace is the same for every such pair; the
embedded adaptations take the operation context as an (unused) argument to
state exactly that. -/
structure Adaptation : Type where
  setup : List SetupStep
  returned : ReturnedConsumer
  deriving DecidableEq, Repr

/-- `adapt_inline_value_in_value_out(method)`: builds an
`_control.RpcContext` and returns a `TransformingConsumer` wrapping
`lambda request: method.service(request, rpc_context)`; the handler is not
invoked. -/
def adapt_inline_value_in_value_out (_ : OperationContext) : Adaptation :=
  Adaptation.mk [SetupStep.newRpcContext] ReturnedConsumer.transformingConsumer

/-- `adapt_inline_value_in_stream_out(method)`: builds an
`_control.RpcContext` and returns a `_ValueInStreamOutConsumer` over
`method.service`; the handler is not invoked. -/
def adapt_inline_value_in_stream_out (_ : OperationContext) : Adaptation :=
  Adaptation.mk [SetupStep.newRpcContext]
    ReturnedConsumer.valueInStreamOutConsumer

/-- `adapt_inline_stream_in_value_out(method, pool)`: builds a rendezvous,
registers `rendezvous.set_outcome` as a termination callback of the
operation context, submits `_pool_wrap(in_pool_thread, operation_context)`
to the pool, and returns the rendezvous. -/
def adapt_inline_stream_in_value_out (_ : OperationContext) : Adaptation :=
  Adaptation.mk
    [SetupStep.newRendezvous,
     SetupStep.addTerminationCallback TermCallback.rendezvousSetOutcome,
     SetupStep.poolSubmit PoolTask.streamInValueOutTask]
    ReturnedConsumer.theRendezvous

/-- `adapt_inline_stream_in_stream_out(method, pool)`: same rendezvous
setup, with the stream-out pooled task. -/
def adapt_inline_stream_in_stream_out (_ : OperationContext) : Adaptation :=
  Adaptation.mk
    [SetupStep.newRendezvous,
     SetupStep.addTerminationCallback TermCallback.rendezvousSetOutcome,
     SetupStep.poolSubmit PoolTask.streamInStreamOutTask]
    ReturnedConsumer.theRendezvous

/-- `adapt_event_value_in_value_out(method)`: returns
`_control.UnaryConsumer(on_payload)`; both the `RpcContext` construction
and the `method.service` call sit inside `on_payload`, so nothing happens
at adaptation time. -/
def adapt_event_value_in_value_out (_ : OperationContext) : Adaptation :=
  Adaptation.mk [] ReturnedConsumer.unaryConsumer

/-- `adapt_event_value_in_stream_out(method)`: returns
`_control.UnaryConsumer(on_payload)` with everything deferred into
`on_payload`, exactly as in the value-out case. -/
def adapt_event_value_in_stream_out (_ : OperationContext) : Adaptation :=
  Adaptation.mk [] ReturnedConsumer.unaryConsumer

/-- `adapt_event_stream_in_value_out(method)`: builds an
`_control.RpcContext`, synchronously calls
`method.service(response_consumer.consume_and_terminate, rpc_context)`,
and returns the handler's return value as the request consumer. -/
def adapt_event_stream_in_value_out (_ : OperationContext) : Adaptation :=
  Adaptation.mk [SetupStep.newRpcContext, SetupStep.invokeService]
    ReturnedConsumer.serviceReturnValue

/-- `adapt_event_stream_in_stream_out(method)`: synchronously calls
`method.service(response_consumer, _control.RpcContext(operation_context))`
and returns the handler's return value as the request consumer. -/
def adapt_event_stream_in_stream_out (_ : OperationContext) : Adaptation :=
  Adaptation.mk [SetupStep.newRpcContext, SetupStep.invokeService]
    ReturnedConsumer.serviceReturnValue

/-- C6: each streamed-request inline adaptation submits exactly one task
to the pool, returns the rendezvous as the request consumer, registers
`rendezvous.set_outcome` as a termination callback of the operation
context before the pool submission, and runs no handler code before
returning — for every operation context. -/
theorem inline_stream_adaptations_submit_once (oc : OperationContext) :
    (((adapt_inline_stream_in_value_out oc).setup.filter
        SetupStep.isPoolSubmit).length = 1
      ∧ (adapt_inline_stream_in_value_out oc).returned
          = ReturnedConsumer.theRendezvous
      ∧ SetupStep.addTerminationCallback TermCallback.rendezvousSetOutcome
          ∈ (adapt_inline_stream_in_value_out oc).setup
      ∧ (adapt_inline_stream_in_value_out oc).setup.findIdx
            SetupStep.isAddTerminationCallback
          < (adapt_inline_stream_in_value_out oc).setup.findIdx
              SetupStep.isPoolSubmit
      ∧ SetupStep.invokeService ∉ (adapt_inline_stream_in_value_out oc).setup)
    ∧ (((adapt_inline_stream_in_stream_out oc).setup.filter
        SetupStep.isPoolSubmit).length = 1
      ∧ (adapt_inline_stream_in_stream_out oc).returned
          = ReturnedConsumer.theRendezvous
      ∧ SetupStep.addTerminationCallback TermCallback.rendezvousSetOutcome
          ∈ (adapt_inline_stream_in_stream_out oc).setup
      ∧ (adapt_inline_stream_in_stream_out oc).setup.findIdx
            SetupStep.isAddTerminationCallback
          < (adapt_inline_stream_in_stream_out oc).setup.findIdx
              SetupStep.isPoolSubmit
      ∧ SetupStep.invokeService
          ∉ (adapt_inline_stream_in_stream_out oc).setup) := by
  simp only [adapt_inline_stream_in_value_out, adapt_inline_stream_in_stream_out]
  decide

/-- C7: each of the four event-driven adaptations performs no pool
submission at all while returning its request consumer — for every
operation context. -/
theorem event_adaptations_never_touch_pool (oc : OperationContext) :
    ((adapt_event_value_in_value_out oc).setup.filter SetupStep.isPoolSubmit
        = []
      ∧ (adapt_event_value_in_value_out oc).returned
          = ReturnedConsumer.unaryConsumer)
    ∧ ((adapt_event_value_in_stream_out oc).setup.filter
          SetupStep.isPoolSubmit = []
      ∧ (adapt_event_value_in_stream_out oc).returned
          = ReturnedConsumer.unaryConsumer)
    ∧ ((adapt_event_stream_in_value_out oc).setup.filter
          SetupStep.isPoolSubmit = []
      ∧ (adapt_event_stream_in_value_out oc).returned
          = ReturnedConsumer.serviceReturnValue)
    ∧ ((adapt_event_stream_in_stream_out oc).setup.filter
          SetupStep.isPoolSubmit = []
      ∧ (adapt_event_stream_in_stream_out oc).returned
          = ReturnedConsumer.serviceReturnValue) := by
  simp only [adapt_event_value_in_value_out, adapt_event_value_in_stream_out,
    adapt_event_stream_in_value_out, adapt_event_stream_in_stream_out]
  decide

/-- C10: the two event-driven streamed-request adaptations invoke
`method.service` synchronously during the adaptation call and return its
return value as the request consumer; the other six adaptations return
without invoking the handler — for every operation context. -/
theorem service_invocation_timing (oc : OperationContext) :
    (SetupStep.invokeService ∈ (adapt_event_stream_in_value_out oc).setup
      ∧ (adapt_event_stream_in_value_out oc).returned
          = ReturnedConsumer.serviceReturnValue)
    ∧ (SetupStep.invokeService ∈ (adapt_event_stream_in_stream_out oc).setup
      ∧ (adapt_event_stream_in_stream_out oc).returned
          = ReturnedConsumer.serviceReturnValue)
    ∧ SetupStep.invokeService ∉ (adapt_inline_value_in_value_out oc).setup
    ∧ SetupStep.invokeService ∉ (adapt_inline_value_in_stream_out oc).setup
    ∧ SetupStep.invokeService ∉ (adapt_inline_stream_in_value_out oc).setup
    ∧ SetupStep.invokeService ∉ (adapt_inline_stream_in_stream_out oc).setup
    ∧ SetupStep.invokeService ∉ (adapt_event_value_in_value_out oc).setup
    ∧ SetupStep.invokeService ∉ (adapt_event_value_in_stream_out oc).setup := by
  simp only [adapt_inline_value_in_value_out, adapt_inline_value_in_stream_out,
    adapt_inline_stream_in_value_out, adapt_inline_stream_in_stream_out,
    adapt_event_value_in_value_out, adapt_event_value_in_stream_out,
    adapt_event_stream_in_value_out, adapt_event_stream_in_stream_out]
  decide

/-- The `in_pool_thread` closure of `adapt_inline_stream_in_value_out`
(the task tagged `PoolTask.streamInValueOutTask`, submitted wrapped in
`_pool_wrap`): calls `method.service(rendezvous, RpcContext(...))` — here
`rendezvous` is abstracted as the list of request values the blocking
reads of the rendezvous deliver to the handler — and forwards the returned
response via `response_consumer.consume_and_terminate`.  Returns the calls
made on the response consumer together with the exception the closure
raises, if any (when the handler raises, the fused call is never made). -/
def in_pool_thread_value_out {V W : Type}
    (service : List V → RpcContext → Except Exc W)
    (rendezvous : List V) (ctx : RpcContext) : List (DEvent W) × Option Exc :=
  match service rendezvous ctx with
  | Except.error e => ([], some e)
  | Except.ok w => ([DEvent.consumeAndTerminate w], none)

/-- The `in_pool_thread` closure of `adapt_inline_stream_in_stream_out`
(the task tagged `PoolTask.streamInStreamOutTask`): pumps the sequence the
handler returns into the response consumer with terminate-at-end enabled,
gated on `operation_context.is_active`. -/
def in_pool_thread_stream_out {V W : Type}
    (service : List V → RpcContext → Except Exc (List W))
    (rendezvous : List V) (ctx : RpcContext) (oc : OperationContext) :
    List (DEvent W) × Option Exc :=
  match service rendezvous ctx with
  | Except.error e => ([], some e)
  | Except.ok seq =>
    ((pipe_iterator_to_consumer seq oc.is_active 0 true).1,
     if (pipe_iterator_to_consumer seq oc.is_active 0 true).2
     then some Exc.abandoned else none)

/-- C8: when the handler returns a response, the stream-in/value-out
pooled task makes exactly one call on the response consumer, the fused
`consume_and_terminate` carrying the handler's return value for the
request list the rendezvous delivered — one fused step denoting that value
followed by termination — and the adaptation indeed submitted exactly this
task to the pool. -/
theorem inline_stream_in_value_out_task_fused {V W : Type}
    (service : List V → RpcContext → Except Exc W)
    (requests : List V) (ctx : RpcContext) (w : W) (oc : OperationContext)
    (h : service requests ctx = Except.ok w) :
    in_pool_thread_value_out service requests ctx
        = ([DEvent.consumeAndTerminate w], none)
    ∧ (in_pool_thread_value_out service requests ctx).1.length = 1
    ∧ flattenTrace (in_pool_thread_value_out service requests ctx).1
        = [DEvent.consume w, DEvent.terminate]
    ∧ SetupStep.poolSubmit PoolTask.streamInValueOutTask
        ∈ (adapt_inline_stream_in_value_out oc).setup := by
  refine ⟨?_, ?_, ?_, ?_⟩
  · simp [in_pool_thread_value_out, h]
  · simp [in_pool_thread_value_out, h]
  · simp [in_pool_thread_value_out, h, flattenTrace, DEvent.flatten]
  · simp [adapt_inline_stream_in_value_out]

/-- Witness for C8: a handler summing the rendezvous-delivered requests
`[1, 2, 3]` leads the pooled task to exactly one fused downstream call
carrying `6`. -/
theorem inline_stream_in_value_out_task_fused_witness :
    in_pool_thread_value_out
        (fun (l : List Nat) _ => Except.ok (l.foldl (fun a b => a + b) 0))
        [1, 2, 3] (RpcContext.mk fun _ => true)
        = ([DEvent.consumeAndTerminate 6], none)
    ∧ (in_pool_thread_value_out
        (fun (l : List Nat) _ => Except.ok (l.foldl (fun a b => a + b) 0))
        [1, 2, 3] (RpcContext.mk fun _ => true)).1.length = 1
    ∧ flattenTrace (in_pool_thread_value_out
        (fun (l : List Nat) _ => Except.ok (l.foldl (fun a b => a + b) 0))
        [1, 2, 3] (RpcContext.mk fun _ => true)).1
        = [DEvent.consume 6, DEvent.terminate]
    ∧ SetupStep.poolSubmit PoolTask.streamInValueOutTask
        ∈ (adapt_inline_stream_in_value_out
            (OperationContext.mk fun _ => true)).setup :=
  inline_stream_in_value_out_task_fused
    (fun (l : List Nat) _ => Except.ok (l.foldl (fun a b => a + b) 0))
    [1, 2, 3] (RpcContext.mk fun _ => true) 6
    (OperationContext.mk fun _ => true) (by rfl)
